import Mathlib

/-!
Verification of the prixnc-extractor core (`prixnc_extractor.py`): a
session pool (`SessionManager`), a retrying API client (`APIClient`,
built on the `Retrying` loop of tenacity), the pagination loop
(`PrixNcExctractService.load_data`) and the record cleaner
(`PrixNcExctractService.cleaning_data`), shallowly embedded in Lean.

The embedding follows the source and the exact semantics of the two
libraries it delegates to:
* `tenacity.wait_exponential(multiplier, min, max)` waits
  `max(max(0, min), min(multiplier * 2 ^ (attempt_number - 1), max))`
  before the next attempt;
* `tenacity.stop_after_attempt(k)` stops once `attempt_number >= k`,
  raising `RetryError`; a non-retryable exception is re-raised before
  the stop check;
* `requests.Response.raise_for_status` raises `HTTPError` for statuses
  in `[400, 600)`; `HTTPError`, `ConnectionError`, `Timeout` and (since
  requests 2.27) `JSONDecodeError` are all subclasses of
  `RequestException`, which the retry predicate of the source
  `retry_if_exception_type((RequestException, ConnectionError, TimeoutError))`
  matches.
-/

namespace PrixNc

/-- JSON values, the possible results of `response.json()`. -/
inductive Json where
  | null : Json
  | bool (b : Bool) : Json
  | num (n : Int) : Json
  | str (s : String) : Json
  | arr (elems : List Json) : Json
  | obj (fields : List (String × Json)) : Json

/-- Python truthiness of a JSON value, as used by `if not json_response`. -/
def Json.truthy : Json → Bool
  | .null => false
  | .bool b => b
  | .num n => n != 0
  | .str s => s != ""
  | .arr elems => !elems.isEmpty
  | .obj fields => !fields.isEmpty

/-- The Python exceptions that can occur in `_api_call` and `load_data`. -/
inductive PyExc where
  | httpError (status : Nat)      -- `requests.HTTPError` (⊂ RequestException)
  | jsonDecodeError               -- `requests.exceptions.JSONDecodeError` (⊂ RequestException, ⊂ ValueError)
  | connectionError               -- `requests.exceptions.ConnectionError` (⊂ RequestException)
  | timeoutExc                    -- `requests.exceptions.Timeout` (⊂ RequestException)
  | builtinTimeoutError           -- builtin `TimeoutError`
  | retryError                    -- `tenacity.RetryError`
  | keyError (key : String)       -- builtin `KeyError`
  | typeError                     -- builtin `TypeError`
  | valueError (msg : String)     -- builtin `ValueError`
  | otherError                    -- any other exception
deriving Repr, DecidableEq

/-- `isinstance(e, RequestException)` per the requests class hierarchy. -/
def PyExc.isRequestException : PyExc → Bool
  | .httpError _ => true
  | .jsonDecodeError => true
  | .connectionError => true
  | .timeoutExc => true
  | _ => false

/-- `isinstance(e, requests.HTTPError)`. -/
def PyExc.isHTTPError : PyExc → Bool
  | .httpError _ => true
  | _ => false

/-- `isinstance(e, ValueError)`: `requests.exceptions.JSONDecodeError`
also derives from `json.JSONDecodeError ⊂ ValueError`. -/
def PyExc.isValueError : PyExc → Bool
  | .valueError _ => true
  | .jsonDecodeError => true
  | _ => false

/-- The tenacity predicate of the source
`retry_if_exception_type((RequestException, ConnectionError, TimeoutError))`;
`ConnectionError` is the one imported from `requests.exceptions` (already a
`RequestException`), `TimeoutError` the Python builtin. -/
def retryPred (e : PyExc) : Bool :=
  e.isRequestException || e == .builtinTimeoutError

/-- `d[k]` on a JSON value: key lookup on an object (KeyError when the key
is absent), TypeError on anything unsubscriptable-by-string. -/
def Json.index : Json → String → Except PyExc Json
  | .obj fields, k =>
    match fields.lookup k with
    | some v => .ok v
    | none => .error (.keyError k)
  | _, _ => .error .typeError

/-- `k in d` on a JSON value: key membership for an object, element
membership for an array, substring test for a string, TypeError for
non-iterables. -/
def Json.hasKey : Json → String → Except PyExc Bool
  | .obj fields, k => .ok (fields.lookup k).isSome
  | .arr elems, k =>
    .ok (elems.any (fun e => match e with | .str s => s == k | _ => false))
  | .str s, k => .ok (decide (1 < (s.splitOn k).length))
  | _, _ => .error .typeError

/-- The retry/backoff configuration stored by `APIClient.__init__`. -/
structure RetryConfig where
  timeout : Int
  max_retry : Int
  min_retry_time : Int
  max_retry_time : Int
  retry_time_multiplier : Int
deriving Repr, DecidableEq

/-- `APIClient.__init__(timeout, max_retry, min_retry_time, max_retry_time,
retry_time_multiplier)`: raises `ValueError` when `timeout <= 0`, otherwise
stores the configuration. -/
def APIClient.construct (timeout max_retry min_retry_time max_retry_time
    retry_time_multiplier : Int) : Except PyExc RetryConfig :=
  if timeout ≤ 0 then .error (.valueError "Timeout must be positive")
  else .ok ⟨timeout, max_retry, min_retry_time, max_retry_time,
            retry_time_multiplier⟩

/-- `tenacity.wait_exponential(multiplier, min, max)` evaluated at
`attempt_number = n`: `max(max(0, min), min(multiplier * 2 ^ (n - 1), max))`. -/
def wait_exponential (multiplier mn mx : Int) (n : Nat) : Int :=
  max (max 0 mn) (min (multiplier * 2 ^ (n - 1)) mx)

/-- What the simulated endpoint does on one GET attempt: either the call
itself raises, or a response with a given status arrives whose body parses
to `some` JSON value (or fails to parse, `none`). -/
inductive AttemptEvent where
  | raises (e : PyExc)
  | responds (status : Nat) (body : Option Json)

/-- One attempt body of `_api_call`: `session.get` (may raise), then
`response.raise_for_status()` (HTTPError for 400 ≤ status < 600), then
`response.json()` (JSONDecodeError on parse failure). -/
def attemptResult : AttemptEvent → Except PyExc Json
  | .raises e => .error e
  | .responds status body =>
    if 400 ≤ status ∧ status < 600 then .error (.httpError status)
    else
      match body with
      | some j => .ok j
      | none => .error .jsonDecodeError

/-- Observable trace of the tenacity-driven attempt loop: the number of the
attempt the loop ended on, the backoff delays slept between attempts, and
the final outcome. -/
structure FetchTrace where
  attempts : Nat
  delays : List Int
  result : Except PyExc Json

/-- The `for attempt in retry_configuration` loop of `_api_call`, at attempt
number `n` with `left` further attempts allowed by `stop_after_attempt`
(`left = 0` means `attempt_number ≥ max_retry`, the stop condition of tenacity).
A retryable failure sleeps `wait_exponential ... n` and retries; a
non-retryable failure is re-raised at once; exhaustion raises `RetryError`. -/
def retryCallAux (cfg : RetryConfig) (server : Nat → AttemptEvent) :
    Nat → Nat → FetchTrace
  | n, left =>
    match attemptResult (server n) with
    | .ok j => ⟨n, [], .ok j⟩
    | .error e =>
      if retryPred e then
        match left with
        | 0 => ⟨n, [], .error .retryError⟩
        | l + 1 =>
          let rest := retryCallAux cfg server (n + 1) l
          ⟨rest.attempts,
           wait_exponential cfg.retry_time_multiplier cfg.min_retry_time
             cfg.max_retry_time n :: rest.delays,
           rest.result⟩
      else ⟨n, [], .error e⟩

/-- The whole attempt loop: attempts are numbered from 1 and
`stop_after_attempt(max_retry)` allows `max_retry - 1` further attempts
after the first (the first attempt always runs, even for
`max_retry ≤ 1`). -/
def retryCall (cfg : RetryConfig) (server : Nat → AttemptEvent) : FetchTrace :=
  retryCallAux cfg server 1 (cfg.max_retry - 1).toNat

/-- Which `except` branch of `_api_call` reports the outcome of the loop
(`except requests.HTTPError`, `except ValueError`, `except Exception`). -/
inductive CallLog where
  | success
  | httpErrorBranch (status : Nat)
  | invalidJsonBranch
  | unexpectedBranch
deriving Repr, DecidableEq

/-- The `try/except` dispatch of `_api_call` over the outcome of the loop. -/
def handlerBranch : Except PyExc Json → CallLog
  | .ok _ => .success
  | .error e =>
    if e.isHTTPError then
      .httpErrorBranch (match e with | .httpError s => s | _ => 0)
    else if e.isValueError then .invalidJsonBranch
    else .unexpectedBranch

/-- `APIClient._api_call`: the parsed JSON on success, `None` whenever the
attempt loop ends in any exception (every `except` branch returns `None`). -/
def api_call (cfg : RetryConfig) (server : Nat → AttemptEvent) : Option Json :=
  match (retryCall cfg server).result with
  | .ok j => some j
  | .error _ => none

/-- `products.extend(x)`: the elements appended when `x` is iterated
(array elements, the keys of an object, the characters of a string); iterating a
scalar raises `TypeError`. -/
def extendArg : Json → Except PyExc (List Json)
  | .arr elems => .ok elems
  | .obj fields => .ok (fields.map (fun kv => Json.str kv.1))
  | .str s => .ok (s.toList.map (fun c => Json.str (String.mk [c])))
  | _ => .error .typeError

/-- How a run of `load_data` can end: the accumulated product list on
terminal-page success, `None` (the failure sentinel) when a page fetch
fails or parses falsy, an uncaught exception, or fuel exhaustion (the
`while True` loop ran longer than the modelling fuel allows). -/
inductive RunResult where
  | success (products : List Json)
  | failure
  | raised (e : PyExc)
  | fuelOut

/-- Result of `load_data` plus how many times `_close_sessions()` ran. -/
structure LoadOutcome where
  result : RunResult
  closes : Nat

/-- The `while True` loop of `PrixNcExctractService.load_data`, with the
fetch of one URL abstracted as `fetch` (what `_api_call` returns there):
on `None` or a falsy body, return `None`; otherwise extend `products` with
`json_response["_embedded"]["produits"]`, then follow
`json_response["_links"]["next"]["href"]` if present, else close the
sessions once and return the accumulated products. -/
def load_data_from (fetch : String → Option Json) :
    Nat → String → List Json → LoadOutcome
  | 0, _, _ => ⟨.fuelOut, 0⟩
  | fuel + 1, url, products =>
    match fetch url with
    | none => ⟨.failure, 0⟩
    | some j =>
      if !j.truthy then ⟨.failure, 0⟩
      else
        match j.index "_embedded" with
        | .error e => ⟨.raised e, 0⟩
        | .ok emb =>
          match emb.index "produits" with
          | .error e => ⟨.raised e, 0⟩
          | .ok prods =>
            match extendArg prods with
            | .error e => ⟨.raised e, 0⟩
            | .ok items =>
              match j.index "_links" with
              | .error e => ⟨.raised e, 0⟩
              | .ok links =>
                match links.hasKey "next" with
                | .error e => ⟨.raised e, 0⟩
                | .ok true =>
                  match links.index "next" with
                  | .error e => ⟨.raised e, 0⟩
                  | .ok nxt =>
                    match nxt.index "href" with
                    | .error e => ⟨.raised e, 0⟩
                    | .ok (.str nextUrl) =>
                      load_data_from fetch fuel nextUrl (products ++ items)
                    | .ok _ => ⟨.raised .typeError, 0⟩
                | .ok false => ⟨.success (products ++ items), 1⟩

/-- `load_data` itself: loop from the starting URL with an empty product
list. -/
def load_data (fetch : String → Option Json) (fuel : Nat) (url : String) :
    LoadOutcome :=
  load_data_from fetch fuel url []

/-- The response envelope of the products endpoint: records under
`_embedded.produits`, and `_links.next.href` present exactly on
non-terminal pages. -/
def mkEnvelope (records : List Json) (next : Option String) : Json :=
  .obj [("_embedded", .obj [("produits", .arr records)]),
        ("_links", .obj (match next with
          | some u => [("next", .obj [("href", .str u)])]
          | none => []))]

/-- `fetch` serves, starting at a URL, a finite chain of pages with the
given record lists, each page linking to the next and the last page
carrying no `next` link. -/
inductive ServesChain (fetch : String → Option Json) :
    String → List (List Json) → Prop where
  | last {u recs} : fetch u = some (mkEnvelope recs none) →
      ServesChain fetch u [recs]
  | step {u u2 recs rest} : fetch u = some (mkEnvelope recs (some u2)) →
      ServesChain fetch u2 rest → ServesChain fetch u (recs :: rest)

/-- `fetch` serves a chain of successful pages and then fails (the fetch
of the next URL returns `None`, i.e. `_api_call` ended in a fatal error or
exhausted its retry budget). -/
inductive ServesChainFail (fetch : String → Option Json) :
    String → List (List Json) → Prop where
  | here {u} : fetch u = none → ServesChainFail fetch u []
  | step {u u2 recs rest} : fetch u = some (mkEnvelope recs (some u2)) →
      ServesChainFail fetch u2 rest → ServesChainFail fetch u (recs :: rest)

/-- A raw record is a Python dict from field names to values. -/
abbrev RawRecord := List (String × Json)

/-- The dict comprehension inside `cleaning_data`:
`{k: v for k, v in product.items() if k != "_links"}`. -/
def cleanRecord (product : RawRecord) : RawRecord :=
  product.filter (fun kv => kv.1 ≠ "_links")

/-- `PrixNcExctractService.cleaning_data`. -/
def cleaning_data (products : List RawRecord) : List RawRecord :=
  products.map cleanRecord

/-- The backoff formula in the words of the spec (for comparison with the
behaviour of `wait_exponential` in the source):
`clamp(min_delay * (multiplier ^ n), min_delay, max_delay)`. -/
def specBackoffDelay (multiplier mn mx : Int) (n : Nat) : Int :=
  max mn (min (mn * multiplier ^ n) mx)

/-- The default configuration of `APIClient.__init__`: `timeout=5`,
`max_retry=3`, `min_retry_time=2`, `max_retry_time=10`,
`retry_time_multiplier=1`. -/
def cfgDefault : RetryConfig := ⟨5, 3, 2, 10, 1⟩

/-- An endpoint answering every attempt with HTTP 404 (valid JSON body). -/
def server404 : Nat → AttemptEvent :=
  fun _ => .responds 404 (some (.obj [("error", .str "not found")]))

/-- An endpoint answering every attempt with HTTP 429. -/
def server429 : Nat → AttemptEvent :=
  fun _ => .responds 429 (some (.obj []))

/-- An endpoint answering every attempt with HTTP 200 and a body that is
not valid JSON. -/
def serverBadJson : Nat → AttemptEvent :=
  fun _ => .responds 200 none

/-- An endpoint refusing every connection. -/
def serverConnFail : Nat → AttemptEvent :=
  fun _ => .raises .connectionError

/-- A two-page site: `u0` serves records 1, 2 and links to `u1`, which
serves records 3, 4 terminally. -/
def demoFetch : String → Option Json := fun s =>
  if s = "u0" then some (mkEnvelope [.num 1, .num 2] (some "u1"))
  else if s = "u1" then some (mkEnvelope [.num 3, .num 4] none)
  else none

/-- A site whose first page is fine but whose endpoint for the second page
refuses every connection, exhausting the retry budget. -/
def demoFailSite : String → Nat → AttemptEvent := fun s =>
  if s = "u0" then
    fun _ => .responds 200 (some (mkEnvelope [.num 1] (some "u1")))
  else serverConnFail


/-- Claim C7: the cleaner returns a list of the same length in the same
order; each output record holds exactly the fields of the corresponding
input record other than `"_links"`; a record without that key passes
through unchanged. -/
theorem claim7_cleaner_shape (products : List RawRecord) :
    (cleaning_data products).length = products.length ∧
    (∀ i (hi : i < (cleaning_data products).length)
        (hp : i < products.length),
        (cleaning_data products).get ⟨i, hi⟩
          = cleanRecord (products.get ⟨i, hp⟩)) ∧
    (∀ (p : RawRecord) (kv : String × Json),
        kv ∈ cleanRecord p ↔ kv ∈ p ∧ kv.1 ≠ "_links") ∧
    (∀ p : RawRecord, (∀ kv ∈ p, kv.1 ≠ "_links") → cleanRecord p = p) := by
  refine ⟨by simp [cleaning_data], ?_, ?_, ?_⟩
  · intro i hi hp
    simp [cleaning_data]
  · intro p kv
    simp [cleanRecord, List.mem_filter]
  · intro p h
    exact List.filter_eq_self.mpr (fun kv hkv => by simpa using h kv hkv)

/-- Witness for C7: the scenario record of the spec, `{"_links": {}, "id": 1}`
cleans to `{"id": 1}`, and a record without the key is untouched. -/
theorem claim7_witness :
    cleanRecord [("id", Json.num 1)] = [("id", Json.num 1)] ∧
    (cleaning_data [[("_links", Json.obj []), ("id", Json.num 1)]]).get
        ⟨0, by simp [cleaning_data]⟩
      = cleanRecord [("_links", Json.obj []), ("id", Json.num 1)] := by
  constructor
  · exact (claim7_cleaner_shape []).2.2.2 [("id", Json.num 1)] (by simp)
  · exact (claim7_cleaner_shape [[("_links", Json.obj []), ("id", Json.num 1)]]).2.1
      0 (by simp [cleaning_data]) (by simp)

/-- Claim C8: the cleaner is idempotent. -/
theorem claim8_cleaner_idempotent (products : List RawRecord) :
    cleaning_data (cleaning_data products) = cleaning_data products := by
  simp [cleaning_data, cleanRecord, List.map_map, Function.comp,
    List.filter_filter]

/-- Claim C9: construction succeeds exactly for `timeout > 0`, fails with
the invalid-configuration `ValueError` for `timeout ≤ 0`, and the fetch
itself reports every failure as the `None` sentinel rather than letting an
exception cross the boundary. -/
theorem claim9_construction (t m a b c : Int) :
    (0 < t → APIClient.construct t m a b c = Except.ok ⟨t, m, a, b, c⟩) ∧
    (t ≤ 0 → APIClient.construct t m a b c
        = Except.error (PyExc.valueError "Timeout must be positive")) ∧
    (∀ (cfg : RetryConfig) (server : Nat → AttemptEvent) (e : PyExc),
        (retryCall cfg server).result = Except.error e →
        api_call cfg server = none) := by
  refine ⟨?_, ?_, ?_⟩
  · intro h
    simp [APIClient.construct, show ¬t ≤ 0 from not_le.mpr h]
  · intro h
    simp [APIClient.construct, h]
  · intro cfg server e h
    simp [api_call, h]

/-- Witness for C9: the default configuration constructs, and a run that
exhausts its retries yields `none`, not an exception. -/
theorem claim9_witness :
    APIClient.construct 5 3 2 10 1 = Except.ok ⟨5, 3, 2, 10, 1⟩ ∧
    api_call cfgDefault server404 = none := by
  refine ⟨(claim9_construction 5 3 2 10 1).1 (by norm_num), ?_⟩
  exact (claim9_construction 5 3 2 10 1).2.2 cfgDefault server404
    .retryError rfl

/-- Claim C1, behaviour of the code at the failing input: a persistent 404
is retried exactly like a 429 — `requests.HTTPError` is a
`RequestException`, which the retry predicate matches — so all 3 default
attempts are observed and the loop ends in `RetryError`, contradicting the
claim (and the docstring note of the source itself that 4XX errors other than 429
do not trigger retries). -/
theorem claim1_404_retried_eval :
    (retryCall cfgDefault server404).attempts = 3 ∧
    (retryCall cfgDefault server404).result = Except.error .retryError ∧
    api_call cfgDefault server404 = none ∧
    (retryCall cfgDefault server429).attempts = 3 :=
  ⟨rfl, rfl, rfl, rfl⟩

/-- Claim C5, behaviour of the code at the failing input: a 2xx response
whose body fails to parse raises `requests.exceptions.JSONDecodeError`,
which (being a `RequestException` since requests 2.27) the retry predicate
matches — so the parse failure is retried through all 3 default attempts,
ends in `RetryError`, and is reported by the generic `except Exception`
branch rather than the distinct invalid-JSON branch, contradicting the
claim (and the docstring of the source, which promises a distinct `ValueError`
path). -/
theorem claim5_parse_failure_retried_eval :
    (retryCall cfgDefault serverBadJson).attempts = 3 ∧
    (retryCall cfgDefault serverBadJson).result = Except.error .retryError ∧
    handlerBranch (retryCall cfgDefault serverBadJson).result
      = .unexpectedBranch ∧
    api_call cfgDefault serverBadJson = none :=
  ⟨rfl, rfl, rfl, rfl⟩

/-- Counterexample for C4: under the default configuration
(`multiplier=1`, `min=2`, `max=10`), the delay actually slept before the
4th attempt (the third recorded delay, `n = 3`) is 4, while the
spec formula `clamp(min_delay * multiplier ^ n, min_delay, max_delay)` gives 2:
the `wait_exponential` of tenacity computes
`clamp(multiplier * 2 ^ (n - 1), ...)`, not `min_delay * multiplier ^ n`. -/
theorem claim4_formula_refuted :
    (retryCall ⟨5, 5, 2, 10, 1⟩ serverConnFail).delays = [2, 2, 4, 8] ∧
    specBackoffDelay 1 2 10 3 = 2 ∧
    wait_exponential 1 2 10 3 ≠ specBackoffDelay 1 2 10 3 :=
  ⟨rfl, rfl, by decide⟩

/-- The attempt loop never reports an attempt number below the one it
started at. -/
theorem retryCallAux_attempts_ge (cfg : RetryConfig)
    (server : Nat → AttemptEvent) :
    ∀ left n, n ≤ (retryCallAux cfg server n left).attempts := by
  intro left
  induction left with
  | zero =>
    intro n
    cases hres : attemptResult (server n) with
    | ok j => simp [retryCallAux, hres]
    | error e =>
      by_cases hr : retryPred e <;> simp [retryCallAux, hres, hr]
  | succ l ih =>
    intro n
    cases hres : attemptResult (server n) with
    | ok j => simp [retryCallAux, hres]
    | error e =>
      by_cases hr : retryPred e
      · simp only [retryCallAux, hres, hr, if_true]
        exact le_trans (Nat.le_succ n) (ih (n + 1))
      · simp [retryCallAux, hres, hr]

/-- The delays recorded by the attempt loop started at attempt `n` are
exactly `wait_exponential` evaluated at `n, n+1, …` up to the attempt
before the final one. -/
theorem retryCallAux_delays (cfg : RetryConfig)
    (server : Nat → AttemptEvent) :
    ∀ left n, (retryCallAux cfg server n left).delays
      = (List.range ((retryCallAux cfg server n left).attempts - n)).map
          (fun k => wait_exponential cfg.retry_time_multiplier
            cfg.min_retry_time cfg.max_retry_time (n + k)) := by
  intro left
  induction left with
  | zero =>
    intro n
    cases hres : attemptResult (server n) with
    | ok j => simp [retryCallAux, hres]
    | error e =>
      by_cases hr : retryPred e <;> simp [retryCallAux, hres, hr]
  | succ l ih =>
    intro n
    cases hres : attemptResult (server n) with
    | ok j => simp [retryCallAux, hres]
    | error e =>
      by_cases hr : retryPred e
      · have hA := retryCallAux_attempts_ge cfg server l (n + 1)
        simp only [retryCallAux, hres, hr, if_true]
        rw [show (retryCallAux cfg server (n + 1) l).attempts - n
            = ((retryCallAux cfg server (n + 1) l).attempts - (n + 1)) + 1
          from by omega]
        rw [List.range_succ_eq_map, List.map_cons, List.map_map]
        refine congrArg₂ _ (by rw [Nat.add_zero]) ?_
        rw [ih (n + 1)]
        refine List.map_congr_left (fun k _ => ?_)
        simp only [Function.comp]
        congr 1
        omega
      · simp [retryCallAux, hres, hr]

/-- `wait_exponential` is monotone in the attempt number. -/
theorem wait_exponential_mono (multiplier mn mx : Int) (n : Nat) :
    wait_exponential multiplier mn mx n
      ≤ wait_exponential multiplier mn mx (n + 1) := by
  unfold wait_exponential
  rcases le_or_lt 0 multiplier with hm | hm
  · have h2 : (2 : Int) ^ (n - 1) ≤ 2 ^ (n + 1 - 1) :=
      pow_le_pow_right₀ (by norm_num) (by omega)
    exact max_le_max le_rfl
      (min_le_min (mul_le_mul_of_nonneg_left h2 hm) le_rfl)
  · have hzero : ∀ k : Nat, multiplier * 2 ^ k ≤ 0 := fun k => by
      have := mul_le_mul_of_nonneg_right hm.le
        (pow_nonneg (by norm_num : (0:Int) ≤ 2) k)
      simpa using this
    rw [max_eq_left (le_trans (min_le_left _ _)
        (le_trans (hzero _) (le_max_left 0 mn))),
      max_eq_left (le_trans (min_le_left _ _)
        (le_trans (hzero _) (le_max_left 0 mn)))]

/-- Claim C4 (amended): the delay before the `(n+1)`-th attempt is
`max(max(0, min_delay), min(multiplier * 2 ^ (n - 1), max_delay))` — the
multiplier scales a base-2 power, `min_delay` does not enter the product —
and that is exactly the sequence of delays the attempt loop sleeps; the
sequence is monotonically non-decreasing, never falls below `min_delay`,
and never exceeds `max_delay` provided `max(0, min_delay) ≤ max_delay`. -/
theorem claim4_backoff_amended (multiplier mn mx : Int) (n : Nat)
    (cfg : RetryConfig) (server : Nat → AttemptEvent) :
    wait_exponential multiplier mn mx n
      = max (max 0 mn) (min (multiplier * 2 ^ (n - 1)) mx) ∧
    wait_exponential multiplier mn mx n
      ≤ wait_exponential multiplier mn mx (n + 1) ∧
    mn ≤ wait_exponential multiplier mn mx n ∧
    (max 0 mn ≤ mx → wait_exponential multiplier mn mx n ≤ mx) ∧
    (retryCall cfg server).delays
      = (List.range ((retryCall cfg server).attempts - 1)).map
          (fun k => wait_exponential cfg.retry_time_multiplier
            cfg.min_retry_time cfg.max_retry_time (k + 1)) := by
  refine ⟨rfl, wait_exponential_mono multiplier mn mx n, ?_, ?_, ?_⟩
  · exact le_trans (le_max_right 0 mn)
      (le_max_left _ (min (multiplier * 2 ^ (n - 1)) mx))
  · intro h
    exact max_le h (min_le_right _ _)
  · rw [retryCall, retryCallAux_delays]
    refine List.map_congr_left (fun k _ => ?_)
    congr 1
    omega

/-- Witness for C4 (amended): under the default configuration the delay
before the 5th attempt is within the configured bounds. -/
theorem claim4_witness :
    (2 : Int) ≤ wait_exponential 1 2 10 4 ∧
    wait_exponential 1 2 10 4 ≤ 10 := by
  have h := claim4_backoff_amended 1 2 10 4 cfgDefault server404
  exact ⟨h.2.2.1, h.2.2.2.1 (by norm_num)⟩

/-- Stepping lemma for the pagination loop: a non-terminal page appends
its records and moves to the linked URL. -/
theorem load_data_from_step (fetch : String → Option Json) (u u2 : String)
    (recs acc : List Json) (fuel : Nat)
    (h : fetch u = some (mkEnvelope recs (some u2))) :
    load_data_from fetch (fuel + 1) u acc
      = load_data_from fetch fuel u2 (acc ++ recs) := by
  simp [load_data_from, h, mkEnvelope, Json.truthy, Json.index,
    Json.hasKey, extendArg, List.lookup]

/-- Stepping lemma for the pagination loop: a terminal page appends its
records, closes the sessions once and succeeds. -/
theorem load_data_from_last (fetch : String → Option Json) (u : String)
    (recs acc : List Json) (fuel : Nat)
    (h : fetch u = some (mkEnvelope recs none)) :
    load_data_from fetch (fuel + 1) u acc
      = ⟨.success (acc ++ recs), 1⟩ := by
  simp [load_data_from, h, mkEnvelope, Json.truthy, Json.index,
    Json.hasKey, extendArg, List.lookup]

/-- Running the loop over a terminally linked chain of pages appends the
records of every page in order and closes the sessions exactly once. -/
theorem load_data_from_chain (fetch : String → Option Json) (u : String)
    (pages : List (List Json)) (h : ServesChain fetch u pages) :
    ∀ fuel acc, pages.length ≤ fuel →
      load_data_from fetch fuel u acc
        = ⟨.success (acc ++ pages.flatten), 1⟩ := by
  induction h with
  | last hu =>
    intro fuel acc hfuel
    match fuel, hfuel with
    | f + 1, _ =>
      rw [load_data_from_last fetch _ _ acc f hu]
      simp
  | step hu _ ih =>
    intro fuel acc hfuel
    match fuel, hfuel with
    | f + 1, hfuel =>
      rw [load_data_from_step fetch _ _ _ acc f hu,
        ih f (acc ++ _) (by simpa using hfuel)]
      simp

/-- Running the loop over a chain of pages whose next fetch fails returns
the `None` sentinel with no records and no session teardown, whatever was
accumulated before. -/
theorem load_data_from_chainFail (fetch : String → Option Json) (u : String)
    (pages : List (List Json)) (h : ServesChainFail fetch u pages) :
    ∀ fuel acc, pages.length < fuel →
      load_data_from fetch fuel u acc = ⟨.failure, 0⟩ := by
  induction h with
  | here hu =>
    intro fuel acc hfuel
    match fuel, hfuel with
    | f + 1, _ => simp [load_data_from, hu]
  | step hu _ ih =>
    intro fuel acc hfuel
    match fuel, hfuel with
    | f + 1, hfuel =>
      rw [load_data_from_step fetch _ _ _ acc f hu]
      exact ih f (acc ++ _) (by simpa using hfuel)

/-- Claim C2: over a terminally linked chain of `n` pages of `k` records
each, `load_data` returns exactly the concatenation of the record lists
of the pages — `n * k` records, in page-arrival order and, within a page, in the
order carried by that page. -/
theorem claim2_pagination_order (fetch : String → Option Json) (u : String)
    (pages : List (List Json)) (k fuel : Nat)
    (hchain : ServesChain fetch u pages) (hfuel : pages.length ≤ fuel)
    (hk : ∀ p ∈ pages, p.length = k) :
    (load_data fetch fuel u).result = .success pages.flatten ∧
    pages.flatten.length = pages.length * k := by
  constructor
  · rw [load_data, load_data_from_chain fetch u pages hchain fuel [] hfuel]
    simp
  · clear hchain hfuel
    induction pages with
    | nil => simp
    | cons p ps ih =>
      simp only [List.flatten_cons, List.length_append, List.length_cons]
      rw [hk p (by simp), ih (fun q hq => hk q (by simp [hq]))]
      ring

/-- Witness for C2: the two-page demo site yields its 2 × 2 records in
order. -/
theorem claim2_witness :
    (load_data demoFetch 2 "u0").result
      = .success [Json.num 1, Json.num 2, Json.num 3, Json.num 4] ∧
    ([[Json.num 1, Json.num 2],
      [Json.num 3, Json.num 4]] : List (List Json)).flatten.length = 2 * 2 := by
  have h := claim2_pagination_order demoFetch "u0"
    [[Json.num 1, Json.num 2], [Json.num 3, Json.num 4]] 2 2
    (ServesChain.step rfl (ServesChain.last rfl))
    (by norm_num) (by simp)
  simpa using h

/-- Claim C3: whenever the fetch of any page fails — `_api_call` ended in
a fatal classification or an exhausted retry budget and so returned the
`None` sentinel — the whole run returns the single failure sentinel and no
records at all, regardless of the pages already fetched successfully. -/
theorem claim3_no_partial_results (cfg : RetryConfig)
    (site : String → Nat → AttemptEvent) (u : String)
    (pages : List (List Json)) (fuel : Nat)
    (hchain : ServesChainFail (fun v => api_call cfg (site v)) u pages)
    (hfuel : pages.length < fuel) :
    load_data (fun v => api_call cfg (site v)) fuel u = ⟨.failure, 0⟩ :=
  load_data_from_chainFail _ u pages hchain fuel [] hfuel

/-- Witness for C3: a site whose first page succeeds and whose second
page endpoint refuses every connection returns total failure, not the
record of the first page. -/
theorem claim3_witness :
    load_data (fun v => api_call cfgDefault (demoFailSite v)) 2 "u0"
      = ⟨.failure, 0⟩ :=
  claim3_no_partial_results cfgDefault demoFailSite "u0" [[Json.num 1]] 2
    (ServesChainFail.step rfl (ServesChainFail.here rfl)) (by norm_num)

/-- Counterexample for C6: in the very scenario of the spec — the first fetch
exhausts all attempts with connection errors — the run ends in terminal
fetch failure and `_close_sessions` is never invoked, so the pool is not
torn down exactly once in every run. -/
theorem claim6_refuted :
    (load_data (fun v => api_call cfgDefault (demoFailSite v)) 3 "u1").closes
      = 0 ∧
    ¬(load_data (fun v => api_call cfgDefault (demoFailSite v)) 3 "u1").closes
      = 1 :=
  ⟨rfl, by decide⟩

/-- Claim C6 (amended): `_close_sessions` — which closes every pool handle
— is invoked exactly once, after the last page, when the run completes at
a terminal page, and zero times when the run ends in fetch failure. -/
theorem claim6_teardown_amended (fetch : String → Option Json) (u : String)
    (pages : List (List Json)) (fuel : Nat) (hfuel : pages.length < fuel) :
    (ServesChain fetch u pages → (load_data fetch fuel u).closes = 1) ∧
    (ServesChainFail fetch u pages → (load_data fetch fuel u).closes = 0) := by
  constructor
  · intro h
    rw [load_data, load_data_from_chain fetch u pages h fuel [] (by omega)]
  · intro h
    rw [load_data, load_data_from_chainFail fetch u pages h fuel [] hfuel]

/-- Witness for C6 (amended): the two-page demo run tears the pool down
exactly once. -/
theorem claim6_witness :
    (load_data demoFetch 3 "u0").closes = 1 :=
  (claim6_teardown_amended demoFetch "u0"
    [[Json.num 1, Json.num 2], [Json.num 3, Json.num 4]] 3 (by norm_num)).1
    (ServesChain.step rfl (ServesChain.last rfl))

/-- Claim C10: a successful fetch whose truthy JSON envelope lacks
`"_embedded"`, lacks `"produits"` inside it, or lacks `"_links"`, makes
the loop raise an uncaught `KeyError` — no key-presence check happens —
while a falsy parsed value (such as the empty object) is treated as total
failure and returns the failure sentinel. -/
theorem claim10_missing_keys (fetch : String → Option Json) (u : String)
    (fuel : Nat) :
    (∀ fields, fetch u = some (Json.obj fields) → fields ≠ [] →
        fields.lookup "_embedded" = none →
        load_data fetch (fuel + 1) u = ⟨.raised (.keyError "_embedded"), 0⟩) ∧
    (∀ fields emb, fetch u = some (Json.obj fields) → fields ≠ [] →
        fields.lookup "_embedded" = some (Json.obj emb) →
        emb.lookup "produits" = none →
        load_data fetch (fuel + 1) u = ⟨.raised (.keyError "produits"), 0⟩) ∧
    (∀ fields emb items, fetch u = some (Json.obj fields) → fields ≠ [] →
        fields.lookup "_embedded" = some (Json.obj emb) →
        emb.lookup "produits" = some (Json.arr items) →
        fields.lookup "_links" = none →
        load_data fetch (fuel + 1) u = ⟨.raised (.keyError "_links"), 0⟩) ∧
    (fetch u = some (Json.obj []) →
        load_data fetch (fuel + 1) u = ⟨.failure, 0⟩) := by
  refine ⟨?_, ?_, ?_, ?_⟩
  · intro fields hf hne hlk
    have hemp : fields.isEmpty = false := by
      cases fields with
      | nil => exact absurd rfl hne
      | cons a l => rfl
    simp [load_data, load_data_from, hf, Json.truthy, hemp, Json.index, hlk]
  · intro fields emb hf hne hlk hlp
    have hemp : fields.isEmpty = false := by
      cases fields with
      | nil => exact absurd rfl hne
      | cons a l => rfl
    simp [load_data, load_data_from, hf, Json.truthy, hemp, Json.index,
      hlk, hlp]
  · intro fields emb items hf hne hlk hlp hll
    have hemp : fields.isEmpty = false := by
      cases fields with
      | nil => exact absurd rfl hne
      | cons a l => rfl
    simp [load_data, load_data_from, hf, Json.truthy, hemp, Json.index,
      hlk, hlp, hll, extendArg]
  · intro hf
    simp [load_data, load_data_from, hf, Json.truthy]

/-- A fetch answering every URL with a truthy object that has no
`"_embedded"` key. -/
def fetchNoEmbedded : String → Option Json :=
  fun _ => some (.obj [("x", .null)])

/-- A fetch answering every URL with the falsy empty object. -/
def fetchEmptyObj : String → Option Json :=
  fun _ => some (.obj [])

/-- Witness for C10: a truthy envelope without `"_embedded"` raises
`KeyError`, and the empty-object envelope yields the failure sentinel. -/
theorem claim10_witness :
    load_data fetchNoEmbedded 1 "w" = ⟨.raised (.keyError "_embedded"), 0⟩ ∧
    load_data fetchEmptyObj 1 "w" = ⟨.failure, 0⟩ :=
  ⟨(claim10_missing_keys fetchNoEmbedded "w" 0).1 [("x", Json.null)] rfl
      (by simp) rfl,
   (claim10_missing_keys fetchEmptyObj "w" 0).2.2.2 rfl⟩

end PrixNc
